import Mathlib

/-!
Shallow embedding of `lib/notifier.js` from joyent/ufds-terror-alert.

The Notifier reacts to directory-change events: it reads rows from a local
row store, applies recipient policy, renders a template and hands mail to a
transport.  External collaborators (row store, mailer, template engine) are
modelled as data: each `db.get` / `db.all` result a handler consumes is an
explicit `Except Unit _` input (`.error` = query error, `.ok none` = no row),
rendered template text is an inductive `Rendered` value capturing the
template name and the variables handed to `render`, and the mail transport
receives the list of `Mail` values a handler emits, in call order.  Times
(`Date.getTime()` milliseconds) are `Int`.
-/

set_option linter.unusedVariables false

/-- A row of the `users` table (`select * from users where uuid = ?`).
The three role flags are SQLite integers, compared against `1` in the
source (`row.operator === 1` etc.). -/
structure UserRow where
  uuid : String
  login : String
  email : String
  status : String
  operator : Int
  reader : Int
  roleoper : Int
deriving DecidableEq

/-- A row of the `keys` table as fetched whole by `operatorAdded`
(`select * from keys where uuid = ?`). -/
structure KeyRow where
  uuid : String
  fingerprint : String
  name : String
  comment : String
deriving DecidableEq

/-- A row of `select uuid, name, comment from keys where fingerprint = ? and
uuid != ?` (the `findKeys` stage of `addedKey`).  `login` and `email` are
the two fields `fetchOtherUser` later assigns onto the same object
(`user.login = row.login; user.email = row.email`); they are `none` until
that mutation happens. -/
structure OtherLoc where
  uuid : String
  name : String
  comment : String
  login : Option String := none
  email : Option String := none
deriving DecidableEq

/-- The configuration fields `notifier.js` reads.  `operPre` and `userPre`
embed the source fields holding the operator / user subject prefixes.
`whitelist := none` models an absent (`undefined`) `config.whitelist`. -/
structure Config where
  initialSync : Bool
  my_email : String
  operators : List String
  operPre : String
  userPre : String
  whitelist : Option (List String)
deriving DecidableEq

/-- A rendered template: the template name (constructor) together with the
event-specific variables the source passes to `render`.  The ambient
`cloud_name` / `company` injection and the ejs expansion itself are the
template engine's business and are not modelled. -/
inductive Rendered where
  | ufdsKeyMismatch (expectedFp newFp : String)
  | changedLogin (whenMs : Int) (uuid oldLogin newLogin email : String)
  | pwChanged (whenMs : Int) (uuid : String) (user : UserRow)
  | operPwChanged (whenMs : Int) (uuid : String) (user : UserRow)
  | emailChanged (whenMs : Int) (uuid oldEmail newEmail : String) (user : UserRow)
  | operEmailChanged (whenMs : Int) (uuid oldEmail newEmail : String) (user : UserRow)
  | deletedOperator (whenMs : Int) (uuid : String) (user : UserRow) (group : Option String)
  | addedKey (whenMs : Int) (uuid key name : String) (otherKeys : List String)
      (otherLocations : List OtherLoc) (user : UserRow)
  | operAddedKey (whenMs : Int) (uuid key name : String) (otherKeys : List String)
      (user : UserRow) (otherLocations : List OtherLoc)
  | deletedKey (whenMs : Int) (uuid key name : String) (otherKeys : List String) (user : UserRow)
  | operDeletedKey (whenMs : Int) (uuid key name : String) (otherKeys : List String)
      (user : UserRow)
  | newOperator (whenMs : Int) (uuid : String) (user : UserRow) (group : String)
      (keys : Option (List KeyRow))
deriving DecidableEq

/-- Which helper issued a send: `operatorMail` or `userMail`. -/
inductive MailKind where
  | oper
  | user
deriving DecidableEq

/-- One `mailer.sendMail` call: sender, recipient list, prefixed subject,
body.  Operator mail goes to the configured `operators` list, user mail to
the caller-supplied addresses. -/
structure Mail where
  kind : MailKind
  sender : String
  recip : List String
  subject : String
  body : Rendered
deriving DecidableEq

/-- `Notifier.prototype.operatorMail`: no-op under `initialSync`, otherwise
one send to `config.operators` with the operator subject prefix. -/
def operatorMail (cfg : Config) (subject : String) (text : Rendered) : List Mail :=
  if cfg.initialSync then []
  else [{ kind := MailKind.oper, sender := cfg.my_email, recip := cfg.operators,
          subject := cfg.operPre ++ subject, body := text }]

/-- `Notifier.prototype.userMail`: no-op under `initialSync`, otherwise one
send to the given addresses with the user subject prefix. -/
def userMail (cfg : Config) (recip : List String) (subject : String) (text : Rendered) :
    List Mail :=
  if cfg.initialSync then []
  else [{ kind := MailKind.user, sender := cfg.my_email, recip := recip,
          subject := cfg.userPre ++ subject, body := text }]

/-- The whitelist predicate used verbatim in four handlers:
`!config.whitelist || config.whitelist.length < 1 ||
config.whitelist.indexOf(uuid) !== -1`. -/
def whitelistOk (cfg : Config) (uuid : String) : Bool :=
  match cfg.whitelist with
  | none => true
  | some wl => wl.length < 1 || wl.contains uuid

/-- The privileged-user test appearing verbatim in several handlers:
`row.operator === 1 || row.reader === 1 || row.roleoper === 1`. -/
def isPrivileged (row : UserRow) : Bool :=
  row.operator == 1 || row.reader == 1 || row.roleoper == 1

/-- In-memory and persisted key-mismatch suppression state:
`this.lastKeyMismatch` and the `metadata` row under key
`last_key_mismatch` (its ISO-string value as milliseconds). -/
structure KMState where
  lastKeyMismatch : Option Int
  meta : Option Int
deriving DecidableEq

/-- The 4-hour suppression window, `4*3600*1000` ms. -/
def fourHoursMs : Int := 4 * 3600 * 1000

/-- The `last` value `ufdsKeyMismatch` compares against: the persisted
metadata row when present (`if (row !== undefined) last = new
Date(row.value)`), else the in-memory `lastKeyMismatch`. -/
def effLast (st : KMState) : Option Int :=
  match st.meta with
  | some v => some v
  | none => st.lastKeyMismatch

/-- `Notifier.prototype.ufdsKeyMismatch`.  `dbErr` is whether the metadata
read errors (then: log, abort).  Otherwise the handler unconditionally
upserts `now` into the metadata row, alerts iff there is no effective last
timestamp or `now - last > 4h`, and sets the in-memory timestamp to `now`.
Returns (new state, mails sent, error log lines). -/
def ufdsKeyMismatch (cfg : Config) (st : KMState) (nowMs : Int) (dbErr : Bool)
    (expectedFp newFp : String) : KMState × List Mail × List String :=
  if dbErr then (st, [], ["failed reading from db"])
  else
    let alert : Bool :=
      match effLast st with
      | none => true
      | some l => nowMs - l > fourHoursMs
    let mails :=
      if alert then
        operatorMail cfg "UFDS key mismatch" (Rendered.ufdsKeyMismatch expectedFp newFp)
      else []
    ({ lastKeyMismatch := some nowMs, meta := some nowMs }, mails, [])

/-- `Notifier.prototype.changedLogin`: operator mail only, skipped when the
row's status is not active. -/
def changedLogin (cfg : Config) (whenMs : Int) (uuid oldLogin newLogin email : String)
    (userRes : Except Unit (Option UserRow)) : List Mail × List String :=
  match userRes with
  | .error _ => ([], ["failed reading from db"])
  | .ok none => ([], ["changed login user " ++ uuid ++
      ", but they could not be found in the database"])
  | .ok (some row) =>
    let disabled := row.status != "active"
    if !disabled then
      (operatorMail cfg ("Account " ++ oldLogin ++ " login name changed")
        (Rendered.changedLogin whenMs uuid oldLogin newLogin email), [])
    else ([], [])

/-- `Notifier.prototype.changedPassword`.  The `email` event argument is
accepted but unused by the source; user mail goes to `row.email`. -/
def changedPassword (cfg : Config) (whenMs : Int) (uuid email : String)
    (userRes : Except Unit (Option UserRow)) : List Mail × List String :=
  match userRes with
  | .error _ => ([], ["failed reading from db"])
  | .ok none => ([], ["operator del from user " ++ uuid ++
      ", but they could not be found in the database"])
  | .ok (some row) =>
    let text := Rendered.pwChanged whenMs uuid row
    let whitelisted := whitelistOk cfg uuid
    let disabled := row.status != "active"
    let userMails :=
      if whitelisted && !disabled then
        userMail cfg [row.email] "Your password has been changed" text
      else []
    let operMails :=
      if isPrivileged row then
        operatorMail cfg ("Password changed for operator " ++ row.login)
          (Rendered.operPwChanged whenMs uuid row)
      else []
    (userMails ++ operMails, [])

/-- `Notifier.prototype.changedEmail`: user mail to both the old and new
address when whitelisted and active, operator mail when privileged. -/
def changedEmail (cfg : Config) (whenMs : Int) (uuid oldEmail newEmail : String)
    (userRes : Except Unit (Option UserRow)) : List Mail × List String :=
  match userRes with
  | .error _ => ([], ["failed reading from db"])
  | .ok none => ([], ["email change from user " ++ uuid ++
      ", but they could not be found in the database"])
  | .ok (some row) =>
    let text := Rendered.emailChanged whenMs uuid oldEmail newEmail row
    let whitelisted := whitelistOk cfg uuid
    let disabled := row.status != "active"
    let userMails :=
      if whitelisted && !disabled then
        userMail cfg [oldEmail, newEmail] "Your email address has been changed" text
      else []
    let operMails :=
      if isPrivileged row then
        operatorMail cfg ("Operator email change for " ++ row.login)
          (Rendered.operEmailChanged whenMs uuid oldEmail newEmail row)
      else []
    (userMails ++ operMails, [])

/-- `Notifier.prototype.deletedUser`: no lookup; operator mail iff the
supplied user object is privileged. -/
def deletedUser (cfg : Config) (whenMs : Int) (uuid : String) (user : UserRow) :
    List Mail :=
  if isPrivileged user then
    operatorMail cfg ("Operator account " ++ user.login ++ " deleted")
      (Rendered.deletedOperator whenMs uuid user none)
  else []

/-- Outcome of the `getOtherUsers` stage of `addedKey`: `done` with the
enriched location list, `errored` when some `db.get` fails (the pipeline
aborts via `ccb(err)`), `thrown` when a row is `undefined` and
`row.login` raises a TypeError. -/
inductive FetchAll where
  | thrown
  | errored
  | done (out : List OtherLoc)
deriving DecidableEq

/-- The `getOtherUsers` stage: `vasync.forEachPipeline` runs
`fetchOtherUser` over `otherLocations` sequentially, stopping at the first
failure.  Each success copies `row.login` / `row.email` onto the location
object; a missing row means the source dereferences `undefined`. -/
def getOtherUsers (fetch : String → Except Unit (Option UserRow)) :
    List OtherLoc → FetchAll
  | [] => .done []
  | l :: rest =>
    match fetch l.uuid with
    | .error _ => .errored
    | .ok none => .thrown
    | .ok (some row) =>
      match getOtherUsers fetch rest with
      | .done out =>
        .done ({ l with login := some row.login, email := some row.email } :: out)
      | .thrown => .thrown
      | .errored => .errored

/-- Decidable equality for `Except`, used to evaluate concrete lookup
results in witnesses. -/
instance exceptDecEq {e a : Type} [DecidableEq e] [DecidableEq a] :
    DecidableEq (Except e a) := fun x y =>
  match x, y with
  | .error e1, .error e2 =>
    match decEq e1 e2 with
    | isTrue h => isTrue (h ▸ rfl)
    | isFalse h => isFalse (fun hh => by cases hh; exact h rfl)
  | .ok a1, .ok a2 =>
    match decEq a1 a2 with
    | isTrue h => isTrue (h ▸ rfl)
    | isFalse h => isFalse (fun hh => by cases hh; exact h rfl)
  | .error _, .ok _ => isFalse (fun hh => by cases hh)
  | .ok _, .error _ => isFalse (fun hh => by cases hh)

/-- Result of a JS handler that can raise an uncaught exception. -/
inductive JsOutcome (α : Type) where
  | ok (v : α)
  | thrown
deriving DecidableEq

/-- Mails of a `JsOutcome` (none were handed to the mailer on a throw,
since `sendMail` runs after `getOtherUsers` in the pipeline). -/
def jsMails (r : JsOutcome (List Mail × List String)) : List Mail :=
  match r with
  | .ok (ms, _) => ms
  | .thrown => []

/-- The `sendMail` stage of `addedKey`: renders `added-key` with the
enriched `otherLocations`, sends user mail when whitelisted and active,
and the `oper-added-key` variant when the subject user is privileged. -/
def sendMailStage (cfg : Config) (whenMs : Int) (uuid key name : String)
    (otherKeys : List String) (otherLocations : List OtherLoc) (user : UserRow) :
    List Mail :=
  let text := Rendered.addedKey whenMs uuid key name otherKeys otherLocations user
  let whitelisted := whitelistOk cfg uuid
  let disabled := user.status != "active"
  (if whitelisted && !disabled then
    userMail cfg [user.email] ("New SSH key added to account " ++ user.login) text
  else []) ++
  (if isPrivileged user then
    operatorMail cfg ("SSH key added to operator " ++ user.login)
      (Rendered.operAddedKey whenMs uuid key name otherKeys user otherLocations)
  else [])

/-- `Notifier.prototype.addedKey`: the `vasync.pipeline` of
`getUser, findKeys, getOtherUsers, sendMail`.  `userRes` is the subject
user lookup, `keysRes` the `findKeys` query, `fetch` the per-uuid lookup
`fetchOtherUser` performs.  `getUser` logs its failures; `findKeys` and
`getOtherUsers` abort via `cb(err)` without logging, and the pipeline's
final callback discards the error. -/
def addedKey (cfg : Config) (whenMs : Int) (uuid key name : String)
    (otherKeys : List String)
    (userRes : Except Unit (Option UserRow))
    (keysRes : Except Unit (List OtherLoc))
    (fetch : String → Except Unit (Option UserRow)) :
    JsOutcome (List Mail × List String) :=
  match userRes with
  | .error _ => .ok ([], ["failed reading from db"])
  | .ok none => .ok ([], ["added key to user " ++ uuid ++
      ", but they could not be found in the database"])
  | .ok (some user) =>
    match keysRes with
    | .error _ => .ok ([], [])
    | .ok locs =>
      match getOtherUsers fetch locs with
      | .thrown => .thrown
      | .errored => .ok ([], [])
      | .done out => .ok (sendMailStage cfg whenMs uuid key name otherKeys out user, [])

/-- `Notifier.prototype.deletedKey`: single user lookup, then user mail
when whitelisted and active and the `oper-deleted-key` variant when
privileged. -/
def deletedKey (cfg : Config) (whenMs : Int) (uuid key name : String)
    (otherKeys : List String)
    (userRes : Except Unit (Option UserRow)) : List Mail × List String :=
  match userRes with
  | .error _ => ([], ["failed reading from db"])
  | .ok none => ([], ["deleted key from user " ++ uuid ++
      ", but they could not be found in the database"])
  | .ok (some row) =>
    let text := Rendered.deletedKey whenMs uuid key name otherKeys row
    let whitelisted := whitelistOk cfg uuid
    let disabled := row.status != "active"
    let userMails :=
      if whitelisted && !disabled then
        userMail cfg [row.email] ("SSH key deleted from account " ++ row.login) text
      else []
    let operMails :=
      if isPrivileged row then
        operatorMail cfg ("SSH key deleted from operator " ++ row.login)
          (Rendered.operDeletedKey whenMs uuid key name otherKeys row)
      else []
    (userMails ++ operMails, [])

/-- `Notifier.prototype.operatorAdded`: user lookup, then a keys lookup
whose error (`s_err`) the source never inspects — on a keys query error the
handler still renders `new-operator` (with `keys` left `undefined`,
modelled as `none`) and sends the operator mail, logging nothing. -/
def operatorAdded (cfg : Config) (whenMs : Int) (uuid : String) (group : Option String)
    (userRes : Except Unit (Option UserRow))
    (keysRes : Except Unit (List KeyRow)) : List Mail × List String :=
  let g := group.getD "operator"
  match userRes with
  | .error _ => ([], ["failed reading from db"])
  | .ok none => ([], ["operator add from user " ++ uuid ++
      ", but they could not be found in the database"])
  | .ok (some row) =>
    let rows : Option (List KeyRow) :=
      match keysRes with
      | .ok rs => some rs
      | .error _ => none
    (operatorMail cfg ("New operator account " ++ row.login)
      (Rendered.newOperator whenMs uuid row g rows), [])

/-- `Notifier.prototype.operatorRemoved`: user lookup, then operator mail. -/
def operatorRemoved (cfg : Config) (whenMs : Int) (uuid : String) (group : Option String)
    (userRes : Except Unit (Option UserRow)) : List Mail × List String :=
  let g := group.getD "operator"
  match userRes with
  | .error _ => ([], ["failed reading from db"])
  | .ok none => ([], ["operator del from user " ++ uuid ++
      ", but they could not be found in the database"])
  | .ok (some row) =>
    (operatorMail cfg ("Demoted operator account " ++ row.login)
      (Rendered.deletedOperator whenMs uuid row (some g)), [])

/-- The sends a handler issued through `operatorMail`. -/
def operSends (ms : List Mail) : List Mail :=
  ms.filter (fun m => m.kind == MailKind.oper)

/-- The sends a handler issued through `userMail`. -/
def userSends (ms : List Mail) : List Mail :=
  ms.filter (fun m => m.kind == MailKind.user)

/-- The (login, email) fields `fetchOtherUser` writes onto a location. -/
def locPair (l : OtherLoc) : Option String × Option String :=
  (l.login, l.email)

/-! Concrete fixtures used by witnesses and counterexamples. -/

/-- A configuration with `initialSync` off and no whitelist. -/
def cfgOff : Config :=
  { initialSync := false, my_email := "alerts@x", operators := ["ops@x"],
    operPre := "[ALERT] ", userPre := "[notice] ", whitelist := none }

/-- A configuration with `initialSync` on. -/
def cfgOn : Config :=
  { cfgOff with initialSync := true }

/-- A configuration with an empty whitelist. -/
def cfgWlEmpty : Config :=
  { cfgOff with whitelist := some ([] : List String) }

/-- A configuration whose whitelist names only `w1`. -/
def cfgWlOther : Config :=
  { cfgOff with whitelist := some ["w1"] }

/-- An active, unprivileged user row. -/
def rowU : UserRow :=
  { uuid := "u1", login := "alice", email := "alice@x", status := "active",
    operator := 0, reader := 0, roleoper := 0 }

/-- A disabled user row holding the operator flag. -/
def rowOp : UserRow :=
  { uuid := "u2", login := "bob", email := "bob@x", status := "disabled",
    operator := 1, reader := 0, roleoper := 0 }

/-- Another account holding the same key fingerprint. -/
def rowA : UserRow :=
  { uuid := "ua", login := "ann", email := "ann@x", status := "active",
    operator := 0, reader := 0, roleoper := 0 }

/-- A second account holding the same key fingerprint. -/
def rowB : UserRow :=
  { uuid := "ub", login := "ben", email := "ben@x", status := "active",
    operator := 0, reader := 0, roleoper := 0 }

/-- `findKeys` row pointing at `rowA`. -/
def locA : OtherLoc := { uuid := "ua", name := "ka", comment := "" }

/-- `findKeys` row pointing at `rowB`. -/
def locB : OtherLoc := { uuid := "ub", name := "kb", comment := "" }

/-- A concrete row store for the `fetchOtherUser` lookups: knows `ua` and
`ub`, returns no row for anything else. -/
def fetchT (s : String) : Except Unit (Option UserRow) :=
  if s = "ua" then .ok (some rowA)
  else if s = "ub" then .ok (some rowB)
  else .ok none

/-- A row store whose every lookup fails. -/
def fetchErr (s : String) : Except Unit (Option UserRow) := .error ()

/-- A `findKeys` row whose uuid has no `users` row in `fetchT`. -/
def locZ : OtherLoc := { uuid := "uz", name := "kz", comment := "" }

/-! Theorems, one per claim of the specification. -/

/-- C5: when the initial-synchronization flag is set, `operatorMail` and
`userMail` are no-ops, and consequently every handler issues zero sends to
the mail transport, whatever its inputs. -/
theorem initialSync_all_mail_suppressed (cfg : Config) (hSync : cfg.initialSync = true) :
    (∀ s t, operatorMail cfg s t = []) ∧
    (∀ r s t, userMail cfg r s t = []) ∧
    (∀ st now dbErr e f, (ufdsKeyMismatch cfg st now dbErr e f).2.1 = []) ∧
    (∀ w u o n e ur, (changedLogin cfg w u o n e ur).1 = []) ∧
    (∀ w u e ur, (changedPassword cfg w u e ur).1 = []) ∧
    (∀ w u o n ur, (changedEmail cfg w u o n ur).1 = []) ∧
    (∀ w u user, deletedUser cfg w u user = []) ∧
    (∀ w u k n ok ur kr f, jsMails (addedKey cfg w u k n ok ur kr f) = []) ∧
    (∀ w u k n ok ur, (deletedKey cfg w u k n ok ur).1 = []) ∧
    (∀ w u g ur kr, (operatorAdded cfg w u g ur kr).1 = []) ∧
    (∀ w u g ur, (operatorRemoved cfg w u g ur).1 = []) := by
  refine ⟨?_, ?_, ?_, ?_, ?_, ?_, ?_, ?_, ?_, ?_, ?_⟩
  · intro s t; simp [operatorMail, hSync]
  · intro r s t; simp [userMail, hSync]
  · intro st now dbErr e f
    cases dbErr <;> simp [ufdsKeyMismatch, operatorMail, hSync]
  · intro w u o n e ur
    rcases ur with _ | (_ | row) <;> simp [changedLogin, operatorMail, hSync]
  · intro w u e ur
    rcases ur with _ | (_ | row) <;> simp [changedPassword, userMail, operatorMail, hSync]
  · intro w u o n ur
    rcases ur with _ | (_ | row) <;> simp [changedEmail, userMail, operatorMail, hSync]
  · intro w u user; simp [deletedUser, operatorMail, hSync]
  · intro w u k n ok ur kr f
    rcases ur with _ | (_ | user)
    · rfl
    · rfl
    rcases kr with _ | locs
    · rfl
    cases hG : getOtherUsers f locs <;>
      simp [addedKey, jsMails, hG, sendMailStage, userMail, operatorMail, hSync]
  · intro w u k n ok ur
    rcases ur with _ | (_ | row) <;> simp [deletedKey, userMail, operatorMail, hSync]
  · intro w u g ur kr
    rcases ur with _ | (_ | row) <;> simp [operatorAdded, operatorMail, hSync]
  · intro w u g ur
    rcases ur with _ | (_ | row) <;> simp [operatorRemoved, operatorMail, hSync]

/-- C5 witness: the theorem applied to the concrete `initialSync` config. -/
theorem initialSync_all_mail_suppressed_witness :
    operatorMail cfgOn "s" (Rendered.ufdsKeyMismatch "a" "b") = [] ∧
    userMail cfgOn ["r@x"] "s" (Rendered.ufdsKeyMismatch "a" "b") = [] :=
  ⟨(initialSync_all_mail_suppressed cfgOn rfl).1 "s" (Rendered.ufdsKeyMismatch "a" "b"),
   (initialSync_all_mail_suppressed cfgOn rfl).2.1 ["r@x"] "s"
     (Rendered.ufdsKeyMismatch "a" "b")⟩

/-- C9: for `password-changed(when, uuid, email)` on an active, unprivileged
row with the configured whitelist empty (and `initialSync` off), the handler
issues exactly the single user-mail send — recipient the row's email, subject
`Your password has been changed` under the user prefix — and zero
operator-mail sends. -/
theorem changedPassword_active_unprivileged (cfg : Config) (whenMs : Int)
    (uuid e : String) (row : UserRow)
    (hSync : cfg.initialSync = false)
    (hWl : cfg.whitelist = some [])
    (hSt : row.status = "active")
    (hOp : row.operator ≠ 1) (hRd : row.reader ≠ 1) (hRo : row.roleoper ≠ 1)
    (hEm : row.email = e) :
    changedPassword cfg whenMs uuid e (.ok (some row)) =
      ([{ kind := MailKind.user, sender := cfg.my_email, recip := [e],
          subject := cfg.userPre ++ "Your password has been changed",
          body := Rendered.pwChanged whenMs uuid row }], []) ∧
    operSends (changedPassword cfg whenMs uuid e (.ok (some row))).1 = [] := by
  have h : changedPassword cfg whenMs uuid e (.ok (some row)) =
      ([{ kind := MailKind.user, sender := cfg.my_email, recip := [e],
          subject := cfg.userPre ++ "Your password has been changed",
          body := Rendered.pwChanged whenMs uuid row }], []) := by
    simp [changedPassword, whitelistOk, hWl, userMail, operatorMail, isPrivileged,
      hSync, hSt, hOp, hRd, hRo, hEm]
  refine ⟨h, ?_⟩
  rw [h]
  simp [operSends]

/-- C9 witness: the scenario at a concrete config and row. -/
theorem changedPassword_active_unprivileged_witness :
    changedPassword cfgWlEmpty 5 "u1" "alice@x" (.ok (some rowU)) =
      ([{ kind := MailKind.user, sender := cfgWlEmpty.my_email, recip := ["alice@x"],
          subject := cfgWlEmpty.userPre ++ "Your password has been changed",
          body := Rendered.pwChanged 5 "u1" rowU }], []) ∧
    operSends (changedPassword cfgWlEmpty 5 "u1" "alice@x" (.ok (some rowU))).1 = [] :=
  changedPassword_active_unprivileged cfgWlEmpty 5 "u1" "alice@x" rowU rfl rfl rfl
    (by decide) (by decide) (by decide) rfl

/-- C1: two key-mismatch events less than 4 hours apart, the first of which
fires from a reset suppression state (no effective last timestamp, or one
more than 4 hours old): exactly one operator alert is sent for the pair,
and the persisted `last_key_mismatch` timestamp (and the in-memory one) is
written with the event time on both events, although the second alert was
suppressed. -/
theorem ufdsKeyMismatch_pair_within_window (cfg : Config) (st : KMState)
    (t1 t2 : Int) (e1 f1 e2 f2 : String)
    (hSync : cfg.initialSync = false)
    (hFirst : effLast st = none ∨ ∃ l, effLast st = some l ∧ t1 - l > fourHoursMs)
    (hOrd : t1 ≤ t2) (hWin : t2 - t1 < fourHoursMs) :
    (ufdsKeyMismatch cfg st t1 false e1 f1).2.1.length = 1 ∧
    (ufdsKeyMismatch cfg (ufdsKeyMismatch cfg st t1 false e1 f1).1 t2 false e2 f2).2.1
      = [] ∧
    ((ufdsKeyMismatch cfg st t1 false e1 f1).2.1 ++
      (ufdsKeyMismatch cfg (ufdsKeyMismatch cfg st t1 false e1 f1).1
        t2 false e2 f2).2.1).length = 1 ∧
    (ufdsKeyMismatch cfg st t1 false e1 f1).1.meta = some t1 ∧
    (ufdsKeyMismatch cfg (ufdsKeyMismatch cfg st t1 false e1 f1).1 t2 false e2 f2).1.meta
      = some t2 ∧
    (ufdsKeyMismatch cfg st t1 false e1 f1).1.lastKeyMismatch = some t1 ∧
    (ufdsKeyMismatch cfg (ufdsKeyMismatch cfg st t1 false e1 f1).1
      t2 false e2 f2).1.lastKeyMismatch = some t2 := by
  have hr1 : ufdsKeyMismatch cfg st t1 false e1 f1 =
      ({ lastKeyMismatch := some t1, meta := some t1 },
       [{ kind := MailKind.oper, sender := cfg.my_email, recip := cfg.operators,
          subject := cfg.operPre ++ "UFDS key mismatch",
          body := Rendered.ufdsKeyMismatch e1 f1 }], []) := by
    rcases hFirst with hF | ⟨l, hF, hGt⟩
    · simp [ufdsKeyMismatch, hF, operatorMail, hSync]
    · simp [ufdsKeyMismatch, hF, operatorMail, hSync, hGt]
  have hn : ¬ (t2 - t1 > fourHoursMs) := by
    unfold fourHoursMs at hWin ⊢; omega
  have hr2 : ufdsKeyMismatch cfg { lastKeyMismatch := some t1, meta := some t1 }
      t2 false e2 f2 = ({ lastKeyMismatch := some t2, meta := some t2 }, [], []) := by
    simp [ufdsKeyMismatch, effLast, hn]
  simp [hr1, hr2]

/-- C1 witness: a fresh state, events at 0 and 1000 ms. -/
theorem ufdsKeyMismatch_pair_within_window_witness :
    (ufdsKeyMismatch cfgOff { lastKeyMismatch := none, meta := none }
      0 false "a" "b").2.1.length = 1 ∧
    (ufdsKeyMismatch cfgOff
      (ufdsKeyMismatch cfgOff { lastKeyMismatch := none, meta := none }
        0 false "a" "b").1 1000 false "a" "b").2.1 = [] ∧
    ((ufdsKeyMismatch cfgOff { lastKeyMismatch := none, meta := none }
        0 false "a" "b").2.1 ++
      (ufdsKeyMismatch cfgOff
        (ufdsKeyMismatch cfgOff { lastKeyMismatch := none, meta := none }
          0 false "a" "b").1 1000 false "a" "b").2.1).length = 1 ∧
    (ufdsKeyMismatch cfgOff { lastKeyMismatch := none, meta := none }
      0 false "a" "b").1.meta = some 0 ∧
    (ufdsKeyMismatch cfgOff
      (ufdsKeyMismatch cfgOff { lastKeyMismatch := none, meta := none }
        0 false "a" "b").1 1000 false "a" "b").1.meta = some 1000 ∧
    (ufdsKeyMismatch cfgOff { lastKeyMismatch := none, meta := none }
      0 false "a" "b").1.lastKeyMismatch = some 0 ∧
    (ufdsKeyMismatch cfgOff
      (ufdsKeyMismatch cfgOff { lastKeyMismatch := none, meta := none }
        0 false "a" "b").1 1000 false "a" "b").1.lastKeyMismatch = some 1000 :=
  ufdsKeyMismatch_pair_within_window cfgOff { lastKeyMismatch := none, meta := none }
    0 1000 "a" "b" "a" "b" rfl (Or.inl rfl) (by decide) (by decide)

/-- C2: a key-mismatch event alerts whenever there is no recorded last
timestamp, or the delta from the recorded last timestamp strictly exceeds
4 hours; and for any pair of events more than 4 hours apart the second one
always alerts (so a pair whose first member also satisfies the expiry
condition produces two alerts). -/
theorem ufdsKeyMismatch_alerts_when_expired (cfg : Config) (st : KMState)
    (t t1 t2 : Int) (e f : String)
    (hSync : cfg.initialSync = false) :
    (effLast st = none → (ufdsKeyMismatch cfg st t false e f).2.1.length = 1) ∧
    (∀ l, effLast st = some l → t - l > fourHoursMs →
      (ufdsKeyMismatch cfg st t false e f).2.1.length = 1) ∧
    (t2 - t1 > fourHoursMs →
      (ufdsKeyMismatch cfg (ufdsKeyMismatch cfg st t1 false e f).1
        t2 false e f).2.1.length = 1) := by
  refine ⟨?_, ?_, ?_⟩
  · intro hF
    simp [ufdsKeyMismatch, hF, operatorMail, hSync]
  · intro l hF hGt
    simp [ufdsKeyMismatch, hF, operatorMail, hSync, hGt]
  · intro hGt
    have hst : (ufdsKeyMismatch cfg st t1 false e f).1 =
        { lastKeyMismatch := some t1, meta := some t1 } := by
      rcases hF : effLast st with _ | l <;>
        simp [ufdsKeyMismatch, hF]
    rw [hst]
    simp [ufdsKeyMismatch, effLast, operatorMail, hSync, hGt]

/-- C2 witness: fresh state alerts at time 3; a pair at 0 and
`4h + 1` ms both alert. -/
theorem ufdsKeyMismatch_alerts_when_expired_witness :
    (ufdsKeyMismatch cfgOff { lastKeyMismatch := none, meta := none }
      3 false "a" "b").2.1.length = 1 ∧
    (ufdsKeyMismatch cfgOff
      (ufdsKeyMismatch cfgOff { lastKeyMismatch := none, meta := none }
        0 false "a" "b").1 14400001 false "a" "b").2.1.length = 1 :=
  ⟨(ufdsKeyMismatch_alerts_when_expired cfgOff
      { lastKeyMismatch := none, meta := none } 3 0 14400001 "a" "b" rfl).1 rfl,
   (ufdsKeyMismatch_alerts_when_expired cfgOff
      { lastKeyMismatch := none, meta := none } 3 0 14400001 "a" "b" rfl).2.2
     (by decide)⟩

/-! Small helper lemmas about the send filters. -/

theorem operSends_append (a b : List Mail) :
    operSends (a ++ b) = operSends a ++ operSends b :=
  List.filter_append _ _

theorem userSends_append (a b : List Mail) :
    userSends (a ++ b) = userSends a ++ userSends b :=
  List.filter_append _ _

theorem operSends_userMail (cfg : Config) (r : List String) (s : String) (t : Rendered) :
    operSends (userMail cfg r s t) = [] := by
  unfold userMail operSends
  split <;> simp

theorem userSends_userMail (cfg : Config) (r : List String) (s : String) (t : Rendered) :
    userSends (userMail cfg r s t) = userMail cfg r s t := by
  unfold userMail userSends
  split <;> simp

theorem operSends_operatorMail (cfg : Config) (s : String) (t : Rendered) :
    operSends (operatorMail cfg s t) = operatorMail cfg s t := by
  unfold operatorMail operSends
  split <;> simp

theorem userSends_operatorMail (cfg : Config) (s : String) (t : Rendered) :
    userSends (operatorMail cfg s t) = [] := by
  unfold operatorMail userSends
  split <;> simp

theorem operSends_ite (c : Prop) [Decidable c] (a b : List Mail) :
    operSends (if c then a else b) = if c then operSends a else operSends b :=
  apply_ite _ _ _ _

theorem userSends_ite (c : Prop) [Decidable c] (a b : List Mail) :
    userSends (if c then a else b) = if c then userSends a else userSends b :=
  apply_ite _ _ _ _

theorem operSends_nil : operSends [] = [] := rfl

theorem userSends_nil : userSends [] = [] := rfl

/-- C3: for a row whose status is not `active`, `changedPassword` and
`changedEmail` issue no user-facing send; the operator-facing variant is
issued exactly when the row is privileged, and the operator-send count is
unchanged by replacing the row's status with anything else. -/
theorem inactive_user_mail_policy (cfg : Config) (whenMs : Int)
    (uuid email oldE newE : String) (row : UserRow)
    (hSync : cfg.initialSync = false)
    (hSt : row.status ≠ "active") :
    userSends (changedPassword cfg whenMs uuid email (.ok (some row))).1 = [] ∧
    userSends (changedEmail cfg whenMs uuid oldE newE (.ok (some row))).1 = [] ∧
    (isPrivileged row = true →
      (operSends (changedPassword cfg whenMs uuid email (.ok (some row))).1).length = 1 ∧
      (operSends (changedEmail cfg whenMs uuid oldE newE (.ok (some row))).1).length
        = 1) ∧
    operSends (changedPassword cfg whenMs uuid email (.ok (some row))).1 =
      (if isPrivileged row then
        operatorMail cfg ("Password changed for operator " ++ row.login)
          (Rendered.operPwChanged whenMs uuid row)
      else []) ∧
    operSends (changedEmail cfg whenMs uuid oldE newE (.ok (some row))).1 =
      (if isPrivileged row then
        operatorMail cfg ("Operator email change for " ++ row.login)
          (Rendered.operEmailChanged whenMs uuid oldE newE row)
      else []) ∧
    (∀ s, (operSends (changedPassword cfg whenMs uuid email
        (.ok (some { row with status := s }))).1).length =
      (operSends (changedPassword cfg whenMs uuid email (.ok (some row))).1).length) ∧
    (∀ s, (operSends (changedEmail cfg whenMs uuid oldE newE
        (.ok (some { row with status := s }))).1).length =
      (operSends (changedEmail cfg whenMs uuid oldE newE (.ok (some row))).1).length) := by
  have hD : (row.status != "active") = true := by simp [hSt]
  refine ⟨?_, ?_, ?_, ?_, ?_, ?_, ?_⟩
  · simp [changedPassword, hD, userSends_append, userSends_userMail,
      userSends_operatorMail, userSends_ite, userSends_nil]
  · simp [changedEmail, hD, userSends_append, userSends_userMail,
      userSends_operatorMail, userSends_ite, userSends_nil]
  · intro hP
    constructor <;>
      simp [changedPassword, changedEmail, hD, hP, operSends_append,
        operSends_userMail, operSends_ite, operSends_nil, operSends,
        operatorMail, hSync]
  · simp [changedPassword, hD, operSends_append, operSends_userMail,
      operSends_operatorMail, operSends_ite, operSends_nil]
  · simp [changedEmail, hD, operSends_append, operSends_userMail,
      operSends_operatorMail, operSends_ite, operSends_nil]
  · intro s
    have hP2 : isPrivileged { row with status := s } = isPrivileged row := rfl
    simp [changedPassword, operSends_append, operSends_userMail,
      operSends_operatorMail, operSends_ite, operSends_nil, hP2,
      operatorMail, hSync]
    split <;> simp [operSends]
  · intro s
    have hP2 : isPrivileged { row with status := s } = isPrivileged row := rfl
    simp [changedEmail, operSends_append, operSends_userMail,
      operSends_operatorMail, operSends_ite, operSends_nil, hP2,
      operatorMail, hSync]
    split <;> simp [operSends]

/-- C3 witness: the disabled operator row gets no user mail but one
operator mail from both handlers. -/
theorem inactive_user_mail_policy_witness :
    userSends (changedPassword cfgOff 7 "u2" "bob@x" (.ok (some rowOp))).1 = [] ∧
    (operSends (changedPassword cfgOff 7 "u2" "bob@x" (.ok (some rowOp))).1).length
      = 1 ∧
    (operSends (changedEmail cfgOff 7 "u2" "o@x" "n@x" (.ok (some rowOp))).1).length
      = 1 :=
  ⟨(inactive_user_mail_policy cfgOff 7 "u2" "bob@x" "o@x" "n@x" rowOp rfl
      (by decide)).1,
   ((inactive_user_mail_policy cfgOff 7 "u2" "bob@x" "o@x" "n@x" rowOp rfl
      (by decide)).2.2.1 (by decide)).1,
   ((inactive_user_mail_policy cfgOff 7 "u2" "bob@x" "o@x" "n@x" rowOp rfl
      (by decide)).2.2.1 (by decide)).2⟩

/-- C4: a configured non-empty whitelist that does not contain the subject
uuid blocks all user-facing mail from the password-changed, email-changed,
key-deleted and key-added (sendMail stage) handlers, whatever the row's
status; an absent or empty whitelist puts every uuid on the whitelist. -/
theorem whitelist_blocks_user_mail (cfg : Config) (wl : List String)
    (whenMs : Int) (uuid email oldE newE key name : String) (otherKeys : List String)
    (locs : List OtherLoc) (row : UserRow) :
    (cfg.whitelist = some wl → wl ≠ [] → uuid ∉ wl →
      userSends (changedPassword cfg whenMs uuid email (.ok (some row))).1 = [] ∧
      userSends (changedEmail cfg whenMs uuid oldE newE (.ok (some row))).1 = [] ∧
      userSends (deletedKey cfg whenMs uuid key name otherKeys (.ok (some row))).1
        = [] ∧
      userSends (sendMailStage cfg whenMs uuid key name otherKeys locs row) = []) ∧
    ((cfg.whitelist = none ∨ cfg.whitelist = some []) → whitelistOk cfg uuid = true) := by
  constructor
  · intro hWl hNe hMem
    have hw : whitelistOk cfg uuid = false := by
      have hl : ¬ wl.length < 1 := by
        cases wl with
        | nil => exact absurd rfl hNe
        | cons a l => simp
      simp [whitelistOk, hWl, hl, hMem]
    refine ⟨?_, ?_, ?_, ?_⟩
    · simp [changedPassword, hw, userSends_append, userSends_userMail,
        userSends_operatorMail, userSends_ite, userSends_nil]
    · simp [changedEmail, hw, userSends_append, userSends_userMail,
        userSends_operatorMail, userSends_ite, userSends_nil]
    · simp [deletedKey, hw, userSends_append, userSends_userMail,
        userSends_operatorMail, userSends_ite, userSends_nil]
    · simp [sendMailStage, hw, userSends_append, userSends_userMail,
        userSends_operatorMail, userSends_ite, userSends_nil]
  · intro h
    rcases h with h | h <;> simp [whitelistOk, h]

/-- C4 witness: a whitelist naming only `w1` blocks the user mail for
uuid `u1` on an active row; the empty whitelist blocks nobody. -/
theorem whitelist_blocks_user_mail_witness :
    userSends (changedPassword cfgWlOther 7 "u1" "alice@x" (.ok (some rowU))).1 = [] ∧
    whitelistOk cfgWlEmpty "u1" = true :=
  ⟨((whitelist_blocks_user_mail cfgWlOther ["w1"] 7 "u1" "alice@x" "o@x" "n@x"
      "k" "kn" [] [] rowU).1 rfl (by decide) (by decide)).1,
   (whitelist_blocks_user_mail cfgWlEmpty [] 7 "u1" "alice@x" "o@x" "n@x"
      "k" "kn" [] [] rowU).2 (Or.inr rfl)⟩


/-! Helper lemmas about the `getOtherUsers` stage. -/

/-- If every location before `l` resolves to a row and `l`'s lookup
returns no row, the stage dereferences `undefined` and throws. -/
theorem getOtherUsers_throws (fetch : String → Except Unit (Option UserRow))
    (pre : List OtherLoc) (l : OtherLoc) (rest : List OtherLoc)
    (hpre : ∀ p ∈ pre, ∃ r, fetch p.uuid = Except.ok (some r))
    (hl : fetch l.uuid = Except.ok none) :
    getOtherUsers fetch (pre ++ l :: rest) = FetchAll.thrown := by
  induction pre with
  | nil => simp [getOtherUsers, hl]
  | cons p ps ih =>
    obtain ⟨r, hr⟩ := hpre p (by simp)
    have hrec := ih (fun q hq => hpre q (by simp [hq]))
    simp [getOtherUsers, List.cons_append, hr, hrec]

/-- If no lookup in the list returns "row missing", the stage never
throws. -/
theorem getOtherUsers_no_throw (fetch : String → Except Unit (Option UserRow))
    (locs : List OtherLoc)
    (h : ∀ x ∈ locs, fetch x.uuid ≠ Except.ok none) :
    getOtherUsers fetch locs ≠ FetchAll.thrown := by
  induction locs with
  | nil => simp [getOtherUsers]
  | cons x xs ih =>
    have hx := h x (by simp)
    rcases hfx : fetch x.uuid with _ | v
    · simp [getOtherUsers, hfx]
    · rcases v with _ | r
      · exact absurd hfx hx
      · have hrec := ih (fun q hq => h q (by simp [hq]))
        rcases hG : getOtherUsers fetch xs with _ | _ | out
        · exact absurd hG hrec
        · simp [getOtherUsers, hfx, hG]
        · simp [getOtherUsers, hfx, hG]

/-- C6 counterexample: in `operatorAdded`, a failing keys lookup
(`s_err` is never inspected) neither prevents the operator mail nor gets
logged — the handler sends one mail and logs nothing. -/
theorem lookup_failure_counterexample :
    (operatorAdded cfgOff 0 "u1" none (.ok (some rowU)) (.error ())).1.length = 1 ∧
    (operatorAdded cfgOff 0 "u1" none (.ok (some rowU)) (.error ())).2 = [] := by
  constructor <;> rfl

/-- C6 amended: a failing subject-user lookup sends no mail and logs
exactly one line in every handler that performs one; but `addedKey`'s
`findKeys` and `getOtherUsers` stages abort without logging, and
`operatorAdded`'s keys lookup ignores its error, logs nothing and still
sends the operator mail. -/
theorem lookup_failure_policy (cfg : Config) (st : KMState) (whenMs t : Int)
    (uuid e oldV newV key name : String) (otherKeys : List String)
    (g : Option String)
    (keysRes : Except Unit (List OtherLoc)) (krows : Except Unit (List KeyRow))
    (fetch : String → Except Unit (Option UserRow))
    (row : UserRow) (l : OtherLoc) (rest : List OtherLoc) :
    ufdsKeyMismatch cfg st t true e newV = (st, [], ["failed reading from db"]) ∧
    changedLogin cfg whenMs uuid oldV newV e (.error ())
      = ([], ["failed reading from db"]) ∧
    changedPassword cfg whenMs uuid e (.error ()) = ([], ["failed reading from db"]) ∧
    changedEmail cfg whenMs uuid oldV newV (.error ())
      = ([], ["failed reading from db"]) ∧
    deletedKey cfg whenMs uuid key name otherKeys (.error ())
      = ([], ["failed reading from db"]) ∧
    operatorAdded cfg whenMs uuid g (.error ()) krows
      = ([], ["failed reading from db"]) ∧
    operatorRemoved cfg whenMs uuid g (.error ())
      = ([], ["failed reading from db"]) ∧
    addedKey cfg whenMs uuid key name otherKeys (.error ()) keysRes fetch
      = JsOutcome.ok ([], ["failed reading from db"]) ∧
    addedKey cfg whenMs uuid key name otherKeys (.ok (some row)) (.error ()) fetch
      = JsOutcome.ok ([], []) ∧
    (fetch l.uuid = .error () →
      addedKey cfg whenMs uuid key name otherKeys (.ok (some row))
        (.ok (l :: rest)) fetch = JsOutcome.ok ([], [])) ∧
    (cfg.initialSync = false →
      (operatorAdded cfg whenMs uuid g (.ok (some row)) (.error ())).1.length = 1 ∧
      (operatorAdded cfg whenMs uuid g (.ok (some row)) (.error ())).2 = []) := by
  refine ⟨rfl, rfl, rfl, rfl, rfl, rfl, rfl, rfl, rfl, ?_, ?_⟩
  · intro h
    simp [addedKey, getOtherUsers, h]
  · intro hSync
    constructor
    · simp [operatorAdded, operatorMail, hSync]
    · rfl

/-- C6 amended witness: concrete instances of the error behaviours. -/
theorem lookup_failure_policy_witness :
    addedKey cfgOff 3 "u1" "kf" "nm" [] (.ok (some rowU)) (.ok (locA :: []))
      fetchErr = JsOutcome.ok ([], []) ∧
    (operatorAdded cfgOff 3 "u1" none (.ok (some rowU)) (.error ())).1.length = 1 :=
  ⟨(lookup_failure_policy cfgOff { lastKeyMismatch := none, meta := none } 3 0
      "u1" "e" "o" "n" "kf" "nm" [] none (.ok []) (.ok []) fetchErr rowU locA
      []).2.2.2.2.2.2.2.2.2.1 rfl,
   ((lookup_failure_policy cfgOff { lastKeyMismatch := none, meta := none } 3 0
      "u1" "e" "o" "n" "kf" "nm" [] none (.ok []) (.ok []) fetchErr rowU locA
      []).2.2.2.2.2.2.2.2.2.2 rfl).1⟩

/-- C7: `addedKey` is a strict sequential pipeline — an error or missing
row at the user-lookup stage, an error at the `findKeys` stage, or an
error inside `getOtherUsers` all abort with no mail sent; and any
invocation that does send mail had all three lookup stages succeed, the
mail being composed from their complete results. -/
theorem addedKey_pipeline (cfg : Config) (whenMs : Int)
    (uuid key name : String) (otherKeys : List String)
    (userRes : Except Unit (Option UserRow)) (keysRes : Except Unit (List OtherLoc))
    (fetch : String → Except Unit (Option UserRow))
    (locs : List OtherLoc) (ms : List Mail) (logs : List String) :
    jsMails (addedKey cfg whenMs uuid key name otherKeys (.error ()) keysRes fetch)
      = [] ∧
    jsMails (addedKey cfg whenMs uuid key name otherKeys (.ok none) keysRes fetch)
      = [] ∧
    jsMails (addedKey cfg whenMs uuid key name otherKeys userRes (.error ()) fetch)
      = [] ∧
    (getOtherUsers fetch locs = FetchAll.errored →
      jsMails (addedKey cfg whenMs uuid key name otherKeys userRes (.ok locs) fetch)
        = []) ∧
    (addedKey cfg whenMs uuid key name otherKeys userRes keysRes fetch
        = JsOutcome.ok (ms, logs) →
      ms ≠ [] →
      ∃ u ls out, userRes = .ok (some u) ∧ keysRes = .ok ls ∧
        getOtherUsers fetch ls = FetchAll.done out ∧
        ms = sendMailStage cfg whenMs uuid key name otherKeys out u) := by
  refine ⟨rfl, rfl, ?_, ?_, ?_⟩
  · rcases userRes with _ | (_ | u) <;> rfl
  · intro hG
    rcases userRes with _ | (_ | u)
    · rfl
    · rfl
    · simp [addedKey, hG, jsMails]
  · intro h hne
    rcases userRes with _ | (_ | u)
    · simp [addedKey] at h
      exact absurd h.1 hne
    · simp [addedKey] at h
      exact absurd h.1 hne
    · rcases keysRes with _ | ls
      · simp [addedKey] at h
        exact absurd h.1 hne
      · rcases hG : getOtherUsers fetch ls with _ | _ | out
        · simp [addedKey, hG] at h
        · simp [addedKey, hG] at h
          exact absurd h.1 hne
        · refine ⟨u, ls, out, rfl, rfl, hG, ?_⟩
          simp [addedKey, hG] at h
          exact h.1.symm

/-- C7 witness: a concrete erroring `getOtherUsers` run sends nothing, and
a concrete successful run that does send mail decomposes into the three
completed lookups. -/
theorem addedKey_pipeline_witness :
    jsMails (addedKey cfgOff 3 "u1" "kf" "nm" [] (.ok (some rowU)) (.ok [locA])
      fetchErr) = [] ∧
    (∃ u ls out, (Except.ok (some rowU) : Except Unit (Option UserRow))
        = .ok (some u) ∧
      (Except.ok [locA] : Except Unit (List OtherLoc)) = .ok ls ∧
      getOtherUsers fetchT ls = FetchAll.done out ∧
      [{ kind := MailKind.user, sender := cfgOff.my_email, recip := ["alice@x"],
         subject := cfgOff.userPre ++ ("New SSH key added to account " ++ "alice"),
         body := Rendered.addedKey 3 "u1" "kf" "nm" []
           [{ uuid := "ua", name := "ka", comment := "",
              login := some "ann", email := some "ann@x" }] rowU }]
        = sendMailStage cfgOff 3 "u1" "kf" "nm" [] out u) :=
  ⟨(addedKey_pipeline cfgOff 3 "u1" "kf" "nm" [] (.ok (some rowU)) (.ok [locA])
      fetchErr [locA] [] []).2.2.2.1 (by decide),
   (addedKey_pipeline cfgOff 3 "u1" "kf" "nm" [] (.ok (some rowU)) (.ok [locA])
      fetchT [locA]
      [{ kind := MailKind.user, sender := cfgOff.my_email, recip := ["alice@x"],
         subject := cfgOff.userPre ++ ("New SSH key added to account " ++ "alice"),
         body := Rendered.addedKey 3 "u1" "kf" "nm" []
           [{ uuid := "ua", name := "ka", comment := "",
              login := some "ann", email := some "ann@x" }] rowU }]
      []).2.2.2.2 (by decide) (by decide)⟩

/-- C8: with two other accounts holding the same fingerprint, the
`getOtherUsers` join resolves both logins and emails, the variable set
handed to the rendered `added-key` message carries both, and permuting the
two lookups permutes — but does not change — the resulting set of
(login, email) pairs. -/
theorem addedKey_two_other_accounts (cfg : Config) (whenMs : Int)
    (uuid key name : String) (otherKeys : List String)
    (l1 l2 : OtherLoc) (r1 r2 u : UserRow)
    (fetch : String → Except Unit (Option UserRow))
    (h1 : fetch l1.uuid = .ok (some r1)) (h2 : fetch l2.uuid = .ok (some r2))
    (hSync : cfg.initialSync = false) (hWl : whitelistOk cfg uuid = true)
    (hSt : u.status = "active") :
    ∃ o12 o21 : List OtherLoc,
      getOtherUsers fetch [l1, l2] = FetchAll.done o12 ∧
      getOtherUsers fetch [l2, l1] = FetchAll.done o21 ∧
      o12.map locPair =
        [(some r1.login, some r1.email), (some r2.login, some r2.email)] ∧
      List.Perm (o12.map locPair) (o21.map locPair) ∧
      ∃ rest : List Mail,
        addedKey cfg whenMs uuid key name otherKeys (.ok (some u)) (.ok [l1, l2])
          fetch = JsOutcome.ok
            ({ kind := MailKind.user, sender := cfg.my_email, recip := [u.email],
               subject := cfg.userPre ++ ("New SSH key added to account " ++ u.login),
               body := Rendered.addedKey whenMs uuid key name otherKeys o12 u }
              :: rest, []) := by
  refine ⟨[{ l1 with login := some r1.login, email := some r1.email },
           { l2 with login := some r2.login, email := some r2.email }],
          [{ l2 with login := some r2.login, email := some r2.email },
           { l1 with login := some r1.login, email := some r1.email }],
          ?_, ?_, ?_, ?_, ?_⟩
  · simp [getOtherUsers, h1, h2]
  · simp [getOtherUsers, h1, h2]
  · simp [locPair]
  · simpa [locPair] using
      List.Perm.swap (some r2.login, some r2.email) (some r1.login, some r1.email) []
  · refine ⟨if isPrivileged u = true then
        operatorMail cfg ("SSH key added to operator " ++ u.login)
          (Rendered.operAddedKey whenMs uuid key name otherKeys u
            [{ l1 with login := some r1.login, email := some r1.email },
             { l2 with login := some r2.login, email := some r2.email }])
      else [], ?_⟩
    have hG : getOtherUsers fetch [l1, l2] = FetchAll.done
        [{ l1 with login := some r1.login, email := some r1.email },
         { l2 with login := some r2.login, email := some r2.email }] := by
      simp [getOtherUsers, h1, h2]
    simp [addedKey, hG, sendMailStage, hWl, hSt, userMail, hSync]

/-- C8 witness: accounts `ann` and `ben` both hold the fingerprint. -/
theorem addedKey_two_other_accounts_witness :
    ∃ o12 o21 : List OtherLoc,
      getOtherUsers fetchT [locA, locB] = FetchAll.done o12 ∧
      getOtherUsers fetchT [locB, locA] = FetchAll.done o21 ∧
      o12.map locPair =
        [(some rowA.login, some rowA.email), (some rowB.login, some rowB.email)] ∧
      List.Perm (o12.map locPair) (o21.map locPair) ∧
      ∃ rest : List Mail,
        addedKey cfgOff 3 "u1" "kf" "nm" [] (.ok (some rowU)) (.ok [locA, locB])
          fetchT = JsOutcome.ok
            ({ kind := MailKind.user, sender := cfgOff.my_email,
               recip := [rowU.email],
               subject := cfgOff.userPre ++
                 ("New SSH key added to account " ++ rowU.login),
               body := Rendered.addedKey 3 "u1" "kf" "nm" [] o12 rowU }
              :: rest, []) :=
  addedKey_two_other_accounts cfgOff 3 "u1" "kf" "nm" [] locA locB rowA rowB rowU
    fetchT (by decide) (by decide) rfl (by decide) rfl

/-- C10: in `fetchOtherUser` the returned row is dereferenced without a
missing-row check — if a uuid listed in the keys table has no `users` row
(and the lookups before it succeed), the handler throws instead of logging
and aborting; when no lookup reports a missing row, no invocation throws. -/
theorem addedKey_missing_other_user (cfg : Config) (whenMs : Int)
    (uuid key name : String) (otherKeys : List String) (u : UserRow)
    (fetch : String → Except Unit (Option UserRow))
    (pre rest locs : List OtherLoc) (l : OtherLoc) :
    ((∀ p ∈ pre, ∃ r, fetch p.uuid = Except.ok (some r)) →
      fetch l.uuid = Except.ok none →
      addedKey cfg whenMs uuid key name otherKeys (.ok (some u))
        (.ok (pre ++ l :: rest)) fetch = JsOutcome.thrown) ∧
    ((∀ x ∈ locs, fetch x.uuid ≠ Except.ok none) →
      ∀ userRes, addedKey cfg whenMs uuid key name otherKeys userRes (.ok locs)
        fetch ≠ JsOutcome.thrown) := by
  constructor
  · intro hpre hl
    have hG := getOtherUsers_throws fetch pre l rest hpre hl
    simp [addedKey, hG]
  · intro h userRes
    have hG := getOtherUsers_no_throw fetch locs h
    rcases userRes with _ | (_ | v)
    · simp [addedKey]
    · simp [addedKey]
    · rcases hGe : getOtherUsers fetch locs with _ | _ | out
      · exact absurd hGe hG
      · simp [addedKey, hGe]
      · simp [addedKey, hGe]

/-- C10 witness: `uz` has no users row, so the handler throws; with only
resolvable uuids it does not. -/
theorem addedKey_missing_other_user_witness :
    addedKey cfgOff 3 "u1" "kf" "nm" [] (.ok (some rowU)) (.ok [locA, locZ])
      fetchT = JsOutcome.thrown ∧
    addedKey cfgOff 3 "u1" "kf" "nm" [] (.ok (some rowU)) (.ok [locA, locB])
      fetchT ≠ JsOutcome.thrown :=
  ⟨(addedKey_missing_other_user cfgOff 3 "u1" "kf" "nm" [] rowU fetchT [locA] []
      [locA, locB] locZ).1
      (by
        intro p hp
        simp at hp
        subst hp
        exact ⟨rowA, by decide⟩)
      (by decide),
   (addedKey_missing_other_user cfgOff 3 "u1" "kf" "nm" [] rowU fetchT [locA] []
      [locA, locB] locZ).2 (by decide) (.ok (some rowU))⟩
